import Mathlib

/-!
Verification of the data-simulation and dual-store synchronization engine of
the City IoT platform (backend/data_simulator.py) against its natural-language
specification.

The Python source is shallowly embedded: pure logic becomes Lean functions,
Python floats are modelled as exact rationals, machine randomness becomes
explicit draw parameters, and the effectful parts (CSV writes, database
sessions, MQTT publishes, the wall clock, the activity-signal file) become
explicit parameters, state values and effect traces.
-/

/-- Column type declarations, mirroring the Python type objects used as values
of COLUMN_TYPES (int, float, bool, str). -/
inductive ColType
  | int
  | float
  | bool
  | str
deriving DecidableEq

/-- A cell value as it appears in a DataFrame row or a database record.
Python floats are modelled as exact rationals. -/
inductive Value
  | bool (b : Bool)
  | int (n : ℤ)
  | float (q : ℚ)
  | str (s : String)
deriving DecidableEq

/-- Source line 148: column names that should not be altered during simulation. -/
def PROTECTED_COLUMNS : List String := ["id", "location", "latitude", "longitude", "bus_id"]

/-- Source lines 81-134: the data types for each sensor column, keyed by table name. -/
def COLUMN_TYPES : List (String × List (String × ColType)) :=
  [ ("traffic_sensors", [("vehicle_count", ColType.int), ("avg_speed", ColType.float)])
  , ("air_quality_sensors", [("pm25", ColType.float), ("pm10", ColType.float),
      ("no2", ColType.float), ("co", ColType.float)])
  , ("noise_sensors", [("decibel_level", ColType.float)])
  , ("weather_stations", [("temperature", ColType.float), ("humidity", ColType.float),
      ("rainfall", ColType.float), ("wind_speed", ColType.float)])
  , ("smart_meters", [("electricity_usage", ColType.float), ("water_usage", ColType.float)])
  , ("waste_bins", [("fill_level", ColType.float), ("temperature", ColType.float)])
  , ("parking_sensors", [("is_occupied", ColType.bool)])
  , ("street_lights", [("status", ColType.bool), ("energy_consumption", ColType.float)])
  , ("public_transport_trackers", [("bus_id", ColType.str), ("occupancy", ColType.int)])
  , ("surveillance_cameras", [("motion_detected", ColType.bool), ("object_count", ColType.int)])
  , ("water_quality_sensors", [("ph", ColType.float), ("turbidity", ColType.float),
      ("dissolved_oxygen", ColType.float)])
  , ("energy_grid_sensors", [("voltage", ColType.float), ("current", ColType.float),
      ("frequency", ColType.float)]) ]

/-- One call to generate_fluctuation consumes at most one random draw; this
record carries one draw of each kind the source can request:
random.random() in [0,1), random.randint(-3, 3), random.uniform(-0.07, 0.07).
The ranges are recorded by DrawsInRange below where a claim needs them. -/
structure Draws where
  rand : ℚ
  randint : ℤ
  uniform : ℚ
deriving DecidableEq

/-- The draws actually produced by the Python random module stay in these ranges. -/
structure DrawsInRange (d : Draws) : Prop where
  rand_nonneg : 0 ≤ d.rand
  rand_lt_one : d.rand < 1
  randint_lb : -3 ≤ d.randint
  randint_ub : d.randint ≤ 3
  uniform_lb : -(7/100) ≤ d.uniform
  uniform_ub : d.uniform ≤ 7/100

/-- Round-half-to-even on integers scaled from a rational, the rounding mode of
the Python built-in round. -/
def roundHalfToEven (x : ℚ) : ℤ :=
  if Int.fract x < 1/2 then ⌊x⌋
  else if 1/2 < Int.fract x then ⌊x⌋ + 1
  else if ⌊x⌋ % 2 = 0 then ⌊x⌋ else ⌊x⌋ + 1

/-- Python round(x, 2): round to two decimal places, half to even. -/
def pyRound2 (x : ℚ) : ℚ := (roundHalfToEven (x * 100) : ℚ) / 100

/-- Source lines 405-425: DataSimulator.generate_fluctuation.  The first two
parameters stand for self.is_street_light_data and datetime.now().hour; the
last carries the random draws the call may consume.  The nested conditional
structure of the source is kept; branches dispatch on the declared column type
exactly as the source tests column_type == bool / int / float, matching the
value constructor of that declared type (the source only ever receives values
of the declared type, read from typed DataFrame columns). -/
def generate_fluctuation (is_street_light_data : Bool) (current_hour : ℤ)
    (value : Value) (column_type : ColType) (column_name : String) (d : Draws) : Value :=
  if column_name = "status" ∧ column_type = ColType.bool ∧ is_street_light_data = true then
    Value.bool (decide (18 ≤ current_hour) || decide (current_hour < 6))
  else if column_name ∈ PROTECTED_COLUMNS then
    value
  else
    match column_type, value with
    | ColType.bool, Value.bool b =>
        if d.rand < 1/10 then Value.bool (!b) else Value.bool b
    | ColType.int, Value.int n =>
        if column_name ∈ (["vehicle_count", "occupancy", "object_count"] : List String) then
          Value.int (max 0 (n + d.randint))
        else
          Value.int (n + d.randint)
    | ColType.float, Value.float q =>
        if column_name ∈ (["humidity", "fill_level"] : List String) then
          Value.float (min 100 (max 0 (q * (1 + d.uniform))))
        else if column_name = "ph" then
          Value.float (min 14 (max 0 (q * (1 + d.uniform))))
        else if column_name ∈ (["rainfall", "electricity_usage", "water_usage",
            "energy_consumption"] : List String) then
          Value.float (max 0 (q * (1 + d.uniform)))
        else
          Value.float (pyRound2 (q * (1 + d.uniform)))
    | _, _ => value

/-- In-memory scheduler state: the module-level globals last_activity_time and
is_sleeping (source lines 577-578).  Times are UNIX seconds as rationals. -/
structure ActivityState where
  last_activity_time : ℚ
  is_sleeping : Bool
deriving DecidableEq

/-- The three observable outcomes of reading the activity-signal file:
the file is absent (or reading raised), its content is empty or non-numeric,
or it parses to a float t. -/
inductive SignalRead
  | absent
  | malformed
  | value (t : ℚ)
deriving DecidableEq

/-- Source lines 607-611: the trailing sleep-timeout check of
check_for_activity_signal. -/
def sleep_check (now : ℚ) (s : ActivityState) : ActivityState :=
  if s.is_sleeping = false ∧ 15 * 60 < now - s.last_activity_time then
    { s with is_sleeping := true }
  else s

/-- Source lines 581-612: check_for_activity_signal.  Takes the current
time.time(), the outcome of reading the signal file, and the current global
state; returns the new state and the function's return value.  A parsed
timestamp strictly newer than the recorded instant updates the instant, clears
the sleeping flag and returns True immediately; every other path falls through
to the sleep-timeout check and returns False. -/
def check_for_activity_signal (now : ℚ) (sig : SignalRead) (s : ActivityState) :
    ActivityState × Bool :=
  match sig with
  | SignalRead.value t =>
      if s.last_activity_time < t then
        ({ last_activity_time := t, is_sleeping := false }, true)
      else
        (sleep_check now s, false)
  | _ => (sleep_check now s, false)

/-- Source line 62 default: MAX_RETRIES = 5. -/
def MAX_RETRIES : ℕ := 5

/-- Source line 63 default: RETRY_DELAY_BASE = 2. -/
def RETRY_DELAY_BASE : ℕ := 2

/-- Observable outcome of DatabaseManager.connect: the returned boolean, the
final connection_healthy flag, and the sequence of backoff sleeps performed
(in seconds, in order). -/
structure ConnectOutcome where
  result : Bool
  connection_healthy : Bool
  waits : List ℕ
deriving DecidableEq

/-- Source lines 174-211: the retry loop of DatabaseManager.connect.  The
probe argument gives, for each retry_count value, whether the SELECT 1 probe
succeeds on that attempt; a failed probe is the SQLAlchemyError branch.  The
fuel argument is MAX_RETRIES - retry_count, making the while loop structural. -/
def connect_loop (probe : ℕ → Bool) : ℕ → ℕ → ConnectOutcome
  | _, 0 => { result := false, connection_healthy := false, waits := [] }
  | retry_count, fuel + 1 =>
      if probe retry_count then
        { result := true, connection_healthy := true, waits := [] }
      else
        let rest := connect_loop probe (retry_count + 1) fuel
        { rest with waits := RETRY_DELAY_BASE ^ (retry_count + 1) :: rest.waits }

/-- Source lines 162-211: DatabaseManager.connect, including the 10-second
reconnect cooldown (lines 167-170): within the cooldown it returns the current
connection_healthy flag without probing. -/
def connect (now last_reconnect_attempt : ℚ) (prev_healthy : Bool)
    (probe : ℕ → Bool) : ConnectOutcome :=
  if now - last_reconnect_attempt < 10 then
    { result := prev_healthy, connection_healthy := prev_healthy, waits := [] }
  else
    connect_loop probe 0 MAX_RETRIES

/-- Association-list lookup by key, the embedding of a Python dict access.
Returns the first binding of the key. -/
def lookupKey {β : Type} (k : String) : List (String × β) → Option β
  | [] => none
  | kv :: rest => if kv.1 = k then some kv.2 else lookupKey k rest

/-- A record passed to update_sensor_data or published over MQTT: a Python
dict as an association list. -/
abbrev Rec := List (String × Value)

/-- A DataFrame row: column name to cell value. -/
abbrev Row := List (String × Value)

/-- A database table (and likewise a DataFrame): a list of rows. -/
abbrev Table := List Row

/-- Python str() applied to a cell value, used when coercing record ids to
strings.  The exact rendering of numbers is irrelevant to every claim; only
that it is a deterministic function of the value matters. -/
def value_str : Value → String
  | Value.bool b => if b then "True" else "False"
  | Value.int n => toString n
  | Value.float q => toString q.num ++ "/" ++ toString q.den
  | Value.str s => s

/-- Source lines 290-306: the dynamically built UPDATE statement for one
record: SET assignments over the record's non-id keys plus the unconditional
timestamp assignment, keyed by the record's id (coerced to a string). -/
structure UpdateQuery where
  table_name : String
  set_params : List (String × Value)
  record_id : String
deriving DecidableEq

/-- Source lines 282-306: build the UPDATE for one record. -/
def build_update_query (table_name : String) (timestamp : Value) (record : Rec) :
    UpdateQuery :=
  { table_name := table_name
    set_params := record.filter (fun kv => ¬(kv.1 = "id")) ++ [("timestamp", timestamp)]
    record_id := value_str ((lookupKey "id" record).getD (Value.str "")) }

/-- Application of a SET clause to one row: every column named in the
assignments takes its assigned value, other columns are untouched. -/
def set_row_params (params : List (String × Value)) : Row → Row
  | [] => []
  | kv :: rest =>
      (match lookupKey kv.1 params with
        | some v => (kv.1, v)
        | none => kv) :: set_row_params params rest

/-- Relational semantics of one UPDATE ... WHERE id = :id statement on a
table: rows whose id column equals the query id (ids are stored as strings in
the database schema) receive the SET assignments. -/
def apply_update_query (q : UpdateQuery) (tbl : Table) : Table :=
  tbl.map (fun row =>
    if lookupKey "id" row = some (Value.str q.record_id) then
      set_row_params q.set_params row
    else row)

/-- Source lines 281-309: the per-record loop of update_sensor_data, executed
on the transaction's session.  The exec argument injects the database outcome
of the i-th session.execute call: none means it succeeds, some msg means it
raises with error text msg.  The staged table is the transaction-local state;
it becomes durable only at commit. -/
def run_record_updates (table_name : String) (timestamp : Value)
    (exec : ℕ → Option String) : List Rec → ℕ → Table → Except String Table
  | [], _, staged => Except.ok staged
  | record :: rest, i, staged =>
      match exec i with
      | some msg => Except.error msg
      | none =>
          run_record_updates table_name timestamp exec rest (i + 1)
            (apply_update_query (build_update_query table_name timestamp record) staged)

/-- Occurrence of a pattern in a character list (used for the Python
substring tests "connection" in str(e) and "timeout" in str(e)). -/
def chars_start_with : List Char → List Char → Bool
  | [], _ => true
  | _ :: _, [] => false
  | p :: ps, c :: cs => p = c && chars_start_with ps cs

/-- Occurrence of a pattern anywhere in a character list. -/
def chars_occur (pat : List Char) : List Char → Bool
  | [] => chars_start_with pat []
  | c :: cs => chars_start_with pat (c :: cs) || chars_occur pat cs

/-- Python: pat in s.lower(). -/
def lower_contains (s pat : String) : Bool :=
  chars_occur pat.toList (s.toList.map Char.toLower)

/-- Observable outcome of DatabaseManager.update_sensor_data: the returned
boolean, the durable table contents after the call, the connection_healthy
flag after the call, and how many times the transaction committed. -/
structure UpdateOutcome where
  returned : Bool
  table : Table
  connection_healthy : Bool
  commits : ℕ
deriving DecidableEq

/-- Source lines 271-326: DatabaseManager.update_sensor_data.  The
ensure_connected argument is the outcome of self.ensure_connected(); timestamp
stands for the datetime.now(timezone.utc) taken at the call; exec injects
per-statement database outcomes.  On success the whole batch commits once; on
any error the transaction rolls back, so the durable table is unchanged, the
call returns False, and an error whose text contains connection or timeout
(case-insensitively) additionally clears connection_healthy. -/
def update_sensor_data (ensure_connected : Bool) (exec : ℕ → Option String)
    (table_name : String) (timestamp : Value) (healthy : Bool)
    (tbl : Table) (data : List Rec) : UpdateOutcome :=
  if ensure_connected = false then
    { returned := false, table := tbl, connection_healthy := healthy, commits := 0 }
  else
    match run_record_updates table_name timestamp exec data 0 tbl with
    | Except.ok staged =>
        { returned := true, table := staged, connection_healthy := healthy, commits := 1 }
    | Except.error msg =>
        { returned := false
          table := tbl
          connection_healthy :=
            if lower_contains msg "connection" || lower_contains msg "timeout" then
              false
            else healthy
          commits := 0 }

/-- Sequential application of every record's UPDATE, the intended durable
effect of a successful batch. -/
def apply_all_updates (table_name : String) (timestamp : Value) (data : List Rec)
    (tbl : Table) : Table :=
  data.foldl
    (fun acc record => apply_update_query (build_update_query table_name timestamp record) acc)
    tbl

/-- Source lines 397-403: the DataSimulator.stats dictionary. -/
structure CycleStats where
  updates_attempted : ℕ
  updates_successful : ℕ
  updates_failed : ℕ
  last_update_time : Option String
  files_processed : List (String × ℕ)
deriving DecidableEq

/-- Source lines 494-496: increment the per-table success count, creating the
entry at zero first when absent. -/
def bump_file_processed (fp : List (String × ℕ)) (t : String) : List (String × ℕ) :=
  match lookupKey t fp with
  | none => fp ++ [(t, 1)]
  | some n => fp.map (fun kv => if kv.1 = t then (t, n + 1) else kv)

/-- Externally visible side effects of one simulate_data_changes call, in
order: each publish_to_mqtt invocation, the CSV write (with its outcome), and
the update_sensor_data invocation (with its outcome). -/
inductive Effect
  | publish (device_type : String) (record : Rec)
  | csv_write (ok : Bool)
  | db_update (table_name : String) (records : List Rec) (ok : Bool)
deriving DecidableEq

/-- Dictionary access row[column] as performed by the source on a DataFrame
row; the source only reads columns present in the row (df.columns). -/
def lookup_value (row : Row) (col : String) : Value :=
  (lookupKey col row).getD (Value.str "")

/-- Assignment df.at[idx, column] restricted to one row: rewrite the cell of
an existing column. -/
def set_value (col : String) (v : Value) : Row → Row
  | [] => []
  | kv :: rest => (if kv.1 = col then (kv.1, v) else kv) :: set_value col v rest

/-- Source lines 468-477: the per-column loop of simulate_data_changes.  For
each DataFrame column that appears in the table's COLUMN_TYPES entry, read the
cell from the row snapshot taken before mutation, fluctuate it, write it back
to the row, and append it to the outgoing record.  draws gives the random
draws consumed for each column. -/
def mutate_columns (is_sl : Bool) (hour : ℤ) (tct : List (String × ColType))
    (draws : String → Draws) (orig_row : Row) :
    List String → Row → Rec → Row × Rec
  | [], new_row, record => (new_row, record)
  | col :: rest, new_row, record =>
      match lookupKey col tct with
      | some ty =>
          let nv := generate_fluctuation is_sl hour (lookup_value orig_row col) ty col (draws col)
          mutate_columns is_sl hour tct draws orig_row rest
            (set_value col nv new_row) (record ++ [(col, nv)])
      | none => mutate_columns is_sl hour tct draws orig_row rest new_row record

/-- Source lines 465-485: processing of one selected row index: snapshot the
row, mutate its typed columns, append the stringified id to the record,
rewrite the timestamp column (when present) to the current UTC instant, and
store the mutated row back into the DataFrame.  Returns the updated DataFrame
and the record destined for the database batch and the broker. -/
def simulate_row (is_sl : Bool) (hour : ℤ) (now_iso : String)
    (tct : List (String × ColType)) (cols : List String) (draws : String → Draws)
    (df : Table) (idx : ℕ) : Table × Rec :=
  let row := df.getD idx []
  let mutated := mutate_columns is_sl hour tct draws row cols row []
  let record := mutated.2 ++ [("id", Value.str (value_str (lookup_value row "id")))]
  let new_row :=
    if "timestamp" ∈ cols then set_value "timestamp" (Value.str now_iso) mutated.1
    else mutated.1
  (df.set idx new_row, record)

/-- Source lines 464-487: the loop over the selected row indices, accumulating
the db_updates batch and one publish_to_mqtt invocation per selected row
(source line 487 publishes unconditionally, before any net-change test). -/
def simulate_rows (is_sl : Bool) (hour : ℤ) (now_iso : String) (table_name : String)
    (tct : List (String × ColType)) (cols : List String) (draws : ℕ → String → Draws) :
    List ℕ → Table → List Rec → List Effect → Table × List Rec × List Effect
  | [], df, db_updates, effects => (df, db_updates, effects)
  | idx :: rest, df, db_updates, effects =>
      let step := simulate_row is_sl hour now_iso tct cols (draws idx) df idx
      simulate_rows is_sl hour now_iso table_name tct cols draws rest step.1
        (db_updates ++ [step.2]) (effects ++ [Effect.publish table_name step.2])

/-- Outcome of CSVManager.write_csv as observed by its caller: it either
returns True, or raises after exhausting its retries (source lines 367-386;
no path returns False). -/
inductive CsvWriteOutcome
  | ok
  | raised
deriving DecidableEq

/-- Observable outcome of one simulate_data_changes call: the in-memory
DataFrame, the on-disk CSV contents, the statistics, the effect trace, and the
returned boolean. -/
structure SimOutcome where
  df : Table
  file : Table
  stats : CycleStats
  effects : List Effect
  returned : Bool
deriving DecidableEq

/-- Source lines 447-509: DataSimulator.simulate_data_changes for one table.
Parameters stand for: the table name (csv_path.stem), the street-light flag
set on line 451, the local hour, the UTC ISO instant written into timestamp
cells, the local ISO instant recorded in last_update_time, the table's
COLUMN_TYPES entry, the DataFrame's column list, the sampled row indices, the
per-row-and-column random draws, the CSV write outcome, and the
update_sensor_data outcome.  df0 is the DataFrame as read (the column-rename
pre-step of lines 454-458 is the identity for every table the claims touch;
cols and tct are taken post-rename).  If the mutated DataFrame differs from
the original and the batch is nonempty, the CSV write and the database update
run and the statistics are updated; a raise from write_csv is caught by the
except of line 505, which increments only updates_failed.  Otherwise the
table is skipped. -/
def simulate_data_changes (table_name : String) (is_sl : Bool) (hour : ℤ)
    (now_iso local_now_iso : String)
    (tct : List (String × ColType)) (cols : List String)
    (rows_to_update : List ℕ) (draws : ℕ → String → Draws)
    (csv_outcome : CsvWriteOutcome) (db_result : Bool)
    (df0 : Table) (stats : CycleStats) : SimOutcome :=
  let res := simulate_rows is_sl hour now_iso table_name tct cols draws rows_to_update df0 [] []
  let df := res.1
  let db_updates := res.2.1
  let effects := res.2.2
  if ¬(df0 = df) ∧ ¬(db_updates = []) then
    match csv_outcome with
    | CsvWriteOutcome.raised =>
        { df := df
          file := df0
          stats := { stats with updates_failed := stats.updates_failed + 1 }
          effects := effects ++ [Effect.csv_write false]
          returned := false }
    | CsvWriteOutcome.ok =>
        let stats1 := { stats with updates_attempted := stats.updates_attempted + 1 }
        let stats2 :=
          if db_result then
            { stats1 with
                updates_successful := stats1.updates_successful + 1
                files_processed := bump_file_processed stats1.files_processed table_name }
          else
            { stats1 with updates_failed := stats1.updates_failed + 1 }
        { df := df
          file := df
          stats := { stats2 with last_update_time := some local_now_iso }
          effects := effects ++ [Effect.csv_write true,
            Effect.db_update table_name db_updates db_result]
          returned := true }
  else
    { df := df, file := df0, stats := stats, effects := effects, returned := false }

/-- Per-cycle inputs of simulate_data_changes for one table, used to iterate
cycles for the multi-cycle invariants. -/
structure CycleParams where
  table_name : String
  is_sl : Bool
  hour : ℤ
  now_iso : String
  local_now_iso : String
  tct : List (String × ColType)
  cols : List String
  rows_to_update : List ℕ
  draws : ℕ → String → Draws
  csv_outcome : CsvWriteOutcome
  db_result : Bool

/-- Iterated cycles over one table's CSV file: each cycle re-reads the file
contents left by the previous cycle (source: run_simulation_cycle calls
simulate_data_changes, which reads the CSV afresh each time). -/
def run_cycles (ps : ℕ → CycleParams) (stats : CycleStats) : ℕ → Table → Table
  | 0, file => file
  | n + 1, file =>
      let p := ps n
      run_cycles ps stats n
        (simulate_data_changes p.table_name p.is_sl p.hour p.now_iso p.local_now_iso
          p.tct p.cols p.rows_to_update p.draws p.csv_outcome p.db_result file stats).file

/-- Model of random.randint(lo, hi): lo plus the draw reduced modulo the size
of the inclusive range. -/
def randint (lo hi : ℕ) (r : ℕ) : ℕ := lo + r % (hi - lo + 1)

/-- Source line 519: the number of tables selected for one cycle, for n
available CSV files.  Python int(n * 0.3) on a natural n is the floor,
modelled exactly as n * 3 / 10 in natural division. -/
def num_files_to_update (n : ℕ) (r : ℕ) : ℕ :=
  randint (max 1 (n * 3 / 10)) (max 1 (n * 7 / 10)) r

/-- Source line 462: the number of rows selected within one table of m rows. -/
def num_rows_to_update (m : ℕ) (r : ℕ) : ℕ :=
  randint (max 1 (m * 3 / 10)) (max 1 (m * 7 / 10)) r

/-- Protected columns pass through generate_fluctuation unchanged, for every
value, declared type and draw. -/
theorem flu_protected (is_sl : Bool) (hour : ℤ) (v : Value) (ty : ColType)
    (name : String) (d : Draws) (hname : name ∈ PROTECTED_COLUMNS) :
    generate_fluctuation is_sl hour v ty name d = v := by
  have hns : ¬(name = "status" ∧ ty = ColType.bool ∧ is_sl = true) := by
    rintro ⟨rfl, -, -⟩
    simp [PROTECTED_COLUMNS] at hname
  unfold generate_fluctuation
  rw [if_neg hns, if_pos hname]

/-- Zero is a fixed point of every float-typed fluctuation branch. -/
theorem flu_float_zero (is_sl : Bool) (hour : ℤ) (name : String) (d : Draws) :
    generate_fluctuation is_sl hour (Value.float 0) ColType.float name d = Value.float 0 := by
  have hns : ¬(name = "status" ∧ ColType.float = ColType.bool ∧ is_sl = true) := by
    rintro ⟨-, h, -⟩
    exact ColType.noConfusion h
  unfold generate_fluctuation
  rw [if_neg hns]
  split
  · rfl
  · split
    · next _ heq1 _ => exact ColType.noConfusion heq1
    · next _ heq1 _ => exact ColType.noConfusion heq1
    · next q heq1 heq2 =>
        injection heq2 with h
        subst h
        split
        · norm_num
        · split
          · norm_num
          · split
            · norm_num
            · norm_num [pyRound2, roundHalfToEven]
    · next _ _ hf => exact (hf 0 rfl rfl).elim

/-- C2: for every input value and every random draw, generate_fluctuation on
the percentage-bounded float columns humidity and fill_level yields a float in
[0, 100]; on the ph column a float in [0, 14]; and on the
non-negative-multiplicative columns rainfall, electricity_usage, water_usage
and energy_consumption a float that is at least 0. -/
theorem C2_fluctuation_bounds (is_sl : Bool) (hour : ℤ) (q : ℚ) (d : Draws) (name : String) :
    ((name = "humidity" ∨ name = "fill_level") →
      ∃ r : ℚ, generate_fluctuation is_sl hour (Value.float q) ColType.float name d
          = Value.float r ∧ 0 ≤ r ∧ r ≤ 100) ∧
    (∃ r : ℚ, generate_fluctuation is_sl hour (Value.float q) ColType.float "ph" d
        = Value.float r ∧ 0 ≤ r ∧ r ≤ 14) ∧
    ((name = "rainfall" ∨ name = "electricity_usage" ∨ name = "water_usage" ∨
        name = "energy_consumption") →
      ∃ r : ℚ, generate_fluctuation is_sl hour (Value.float q) ColType.float name d
          = Value.float r ∧ 0 ≤ r) := by
  refine ⟨?_, ?_, ?_⟩
  · rintro (rfl | rfl) <;>
    · refine ⟨min 100 (max 0 (q * (1 + d.uniform))), ?_,
        le_min (by norm_num) (le_max_left 0 _), min_le_left _ _⟩
      simp [generate_fluctuation, PROTECTED_COLUMNS]
  · refine ⟨min 14 (max 0 (q * (1 + d.uniform))), ?_,
      le_min (by norm_num) (le_max_left 0 _), min_le_left _ _⟩
    simp [generate_fluctuation, PROTECTED_COLUMNS]
  · rintro (rfl | rfl | rfl | rfl) <;>
    · refine ⟨max 0 (q * (1 + d.uniform)), ?_, le_max_left 0 _⟩
      simp [generate_fluctuation, PROTECTED_COLUMNS]

/-- Witness for C2 at the humidity column with a concrete value and draw. -/
theorem C2_fluctuation_bounds_witness :
    ∃ r : ℚ, generate_fluctuation false 12 (Value.float 55) ColType.float "humidity"
        ⟨0, 0, 0⟩ = Value.float r ∧ 0 ≤ r ∧ r ≤ 100 :=
  (C2_fluctuation_bounds false 12 55 ⟨0, 0, 0⟩ "humidity").1 (Or.inl rfl)

/-- C5: for the boolean status column of the street-light table,
generate_fluctuation returns true exactly when the local hour lies in
[18, 24) or [0, 6), for every prior value of the column. -/
theorem C5_street_light_status (hour : ℤ) (value : Value) (d : Draws)
    (h0 : 0 ≤ hour) (h24 : hour < 24) :
    (generate_fluctuation true hour value ColType.bool "status" d = Value.bool true ↔
      ((18 ≤ hour ∧ hour < 24) ∨ (0 ≤ hour ∧ hour < 6))) := by
  have hred : generate_fluctuation true hour value ColType.bool "status" d
      = Value.bool (decide (18 ≤ hour) || decide (hour < 6)) := by
    simp [generate_fluctuation]
  rw [hred]
  simp only [Value.bool.injEq, Bool.or_eq_true, decide_eq_true_eq]
  omega

/-- Witness for C5 at hour 20. -/
theorem C5_street_light_status_witness :
    (generate_fluctuation true 20 (Value.bool false) ColType.bool "status" ⟨1, 0, 0⟩
        = Value.bool true ↔
      ((18 ≤ (20 : ℤ) ∧ (20 : ℤ) < 24) ∨ (0 ≤ (20 : ℤ) ∧ (20 : ℤ) < 6))) :=
  C5_street_light_status 20 (Value.bool false) ⟨1, 0, 0⟩ (by norm_num) (by norm_num)

/-- C10: zero is a fixed point of every float fluctuation: on any float column
a value of exactly 0 is returned unchanged for every draw, and hence stays 0
under any number of further fluctuations. -/
theorem C10_zero_fixed_point (is_sl : Bool) (hour : ℤ) (name : String) (d : Draws) :
    generate_fluctuation is_sl hour (Value.float 0) ColType.float name d = Value.float 0 ∧
    ∀ ds : List Draws,
      ds.foldl (fun v dr => generate_fluctuation is_sl hour v ColType.float name dr)
        (Value.float 0) = Value.float 0 := by
  refine ⟨flu_float_zero is_sl hour name d, ?_⟩
  intro ds
  induction ds with
  | nil => rfl
  | cons dr rest ih =>
      simp only [List.foldl_cons, flu_float_zero]
      exact ih

/-- C7: when every probe fails and the call is outside the reconnect cooldown,
connect performs exactly MAX_RETRIES attempts with exponential backoff sleeps
of RETRY_DELAY_BASE raised to the retry count (2, 4, 8, 16, 32 seconds),
returns False and leaves connection_healthy False, as a total function
(no unhandled exception, no process termination). -/
theorem C7_connect_exhaustion (now last : ℚ) (prev : Bool) (probe : ℕ → Bool)
    (hcool : ¬(now - last < 10)) (hfail : ∀ i, probe i = false) :
    connect now last prev probe =
      { result := false, connection_healthy := false, waits := [2, 4, 8, 16, 32] } := by
  have hp : probe = fun _ => false := funext hfail
  unfold connect
  rw [if_neg hcool, hp]
  decide

/-- Witness for C7 with a concrete clock and an always-failing probe. -/
theorem C7_connect_exhaustion_witness :
    connect 100 0 false (fun _ => false) =
      { result := false, connection_healthy := false, waits := [2, 4, 8, 16, 32] } :=
  C7_connect_exhaustion 100 0 false (fun _ => false) (by norm_num) (fun _ => rfl)

/-- Bounds of the randint model when the range is well formed. -/
theorem randint_mem (lo hi r : ℕ) (h : lo ≤ hi) :
    lo ≤ randint lo hi r ∧ randint lo hi r ≤ hi := by
  unfold randint
  have hm : r % (hi - lo + 1) < hi - lo + 1 := Nat.mod_lt r (by omega)
  omega

/-- C8: in every cycle the number of tables selected lies between
max(1, floor(0.3 n)) and max(1, floor(0.7 n)) of the n available tables and is
at least one, and for each processed table the number of rows selected lies
between max(1, floor(0.3 m)) and max(1, floor(0.7 m)) of its m rows and is at
least one, for every random draw. -/
theorem C8_selection_counts (n m r rr : ℕ) :
    (max 1 (n * 3 / 10) ≤ num_files_to_update n r ∧
      num_files_to_update n r ≤ max 1 (n * 7 / 10) ∧
      1 ≤ num_files_to_update n r) ∧
    (max 1 (m * 3 / 10) ≤ num_rows_to_update m rr ∧
      num_rows_to_update m rr ≤ max 1 (m * 7 / 10) ∧
      1 ≤ num_rows_to_update m rr) := by
  have hle : ∀ k : ℕ, k * 3 / 10 ≤ k * 7 / 10 := by
    intro k
    have : k * 3 ≤ k * 7 := by omega
    exact Nat.div_le_div_right this
  have h1 : max 1 (n * 3 / 10) ≤ max 1 (n * 7 / 10) := max_le_max le_rfl (hle n)
  have h2 : max 1 (m * 3 / 10) ≤ max 1 (m * 7 / 10) := max_le_max le_rfl (hle m)
  obtain ⟨ha1, ha2⟩ := randint_mem _ _ r h1
  obtain ⟨hb1, hb2⟩ := randint_mem _ _ rr h2
  refine ⟨⟨ha1, ha2, ?_⟩, ⟨hb1, hb2, ?_⟩⟩
  · exact le_trans (le_max_left 1 _) ha1
  · exact le_trans (le_max_left 1 _) hb1

/-- Sleep-timeout check never changes the recorded activity instant. -/
theorem sleep_check_last (now : ℚ) (s : ActivityState) :
    (sleep_check now s).last_activity_time = s.last_activity_time := by
  unfold sleep_check
  split <;> rfl

/-- Sleep-timeout check puts the state asleep whenever more than 15 minutes
have elapsed. -/
theorem sleep_check_sleeping_of_elapsed (now : ℚ) (s : ActivityState)
    (h : 15 * 60 < now - s.last_activity_time) :
    (sleep_check now s).is_sleeping = true := by
  unfold sleep_check
  split
  · rfl
  · next hcond =>
      cases hs : s.is_sleeping
      · exact absurd ⟨hs, h⟩ hcond
      · rfl

/-- Sleep-timeout check either leaves the sleeping flag alone or sets it on a
genuine timeout. -/
theorem sleep_check_sleeping_cases (now : ℚ) (s : ActivityState) :
    (sleep_check now s).is_sleeping = s.is_sleeping ∨
      (15 * 60 < now - s.last_activity_time ∧ (sleep_check now s).is_sleeping = true) := by
  unfold sleep_check
  split
  · next hcond => exact Or.inr ⟨hcond.2, rfl⟩
  · exact Or.inl rfl

/-- C9: on a scheduler tick, the state ends asleep whenever strictly more than
15 minutes (900 seconds) have elapsed since the recorded activity instant and
no strictly newer signal was read; a signal strictly newer than the recorded
instant updates the instant and clears the sleeping flag on that tick,
returning True; an absent or malformed signal file changes nothing beyond the
sleep-timeout check and returns False. -/
theorem C9_activity_scheduler (now : ℚ) (sig : SignalRead) (s : ActivityState) :
    ((∀ t, sig = SignalRead.value t → t ≤ s.last_activity_time) →
      15 * 60 < now - s.last_activity_time →
      (check_for_activity_signal now sig s).1.is_sleeping = true) ∧
    (∀ t, sig = SignalRead.value t → s.last_activity_time < t →
      (check_for_activity_signal now sig s).1 =
        { last_activity_time := t, is_sleeping := false } ∧
      (check_for_activity_signal now sig s).2 = true) ∧
    ((sig = SignalRead.absent ∨ sig = SignalRead.malformed) →
      (check_for_activity_signal now sig s).1.last_activity_time = s.last_activity_time ∧
      ((check_for_activity_signal now sig s).1.is_sleeping = s.is_sleeping ∨
        (15 * 60 < now - s.last_activity_time ∧
          (check_for_activity_signal now sig s).1.is_sleeping = true)) ∧
      (check_for_activity_signal now sig s).2 = false) := by
  refine ⟨?_, ?_, ?_⟩
  · intro hstale helapsed
    cases sig with
    | absent => exact sleep_check_sleeping_of_elapsed now s helapsed
    | malformed => exact sleep_check_sleeping_of_elapsed now s helapsed
    | value t =>
        have hle : t ≤ s.last_activity_time := hstale t rfl
        simp only [check_for_activity_signal]
        rw [if_neg (by exact absurd · (not_lt.mpr hle))]
        exact sleep_check_sleeping_of_elapsed now s helapsed
  · rintro t rfl hlt
    simp only [check_for_activity_signal]
    rw [if_pos hlt]
    exact ⟨rfl, rfl⟩
  · rintro (rfl | rfl) <;>
      exact ⟨sleep_check_last now s, sleep_check_sleeping_cases now s, rfl⟩

/-- Witness for C9: with no signal and 1000 seconds elapsed the scheduler goes
to sleep. -/
theorem C9_activity_scheduler_witness :
    (check_for_activity_signal 1000 SignalRead.absent
        { last_activity_time := 0, is_sleeping := false }).1.is_sleeping = true :=
  (C9_activity_scheduler 1000 SignalRead.absent
      { last_activity_time := 0, is_sleeping := false }).1
    (fun t h => by cases h) (by norm_num)

/-- When every statement execution succeeds, the per-record loop stages every
record's UPDATE in order. -/
theorem run_record_updates_all_ok (table_name : String) (timestamp : Value)
    (exec : ℕ → Option String) (hexec : ∀ i, exec i = none) :
    ∀ (data : List Rec) (i : ℕ) (tbl : Table),
      run_record_updates table_name timestamp exec data i tbl =
        Except.ok (apply_all_updates table_name timestamp data tbl) := by
  intro data
  induction data with
  | nil => intro i tbl; rfl
  | cons record rest ih =>
      intro i tbl
      simp only [run_record_updates, hexec i, apply_all_updates, List.foldl_cons]
      exact ih (i + 1) _

/-- C6: with a live connection, update_sensor_data executes every record's
UPDATE (SET over the record's non-id keys plus an unconditional timestamp
assignment, keyed by id) inside one transaction that commits exactly once when
every statement succeeds; on any statement error the transaction is rolled
back, so the durable table is unchanged and the call returns False with no
commit, and an error whose text contains connection or timeout additionally
clears connection_healthy. -/
theorem C6_update_transaction (exec : ℕ → Option String) (table_name : String)
    (timestamp : Value) (healthy : Bool) (tbl : Table) (data : List Rec) :
    ((∀ i, exec i = none) →
      update_sensor_data true exec table_name timestamp healthy tbl data =
        { returned := true
          table := apply_all_updates table_name timestamp data tbl
          connection_healthy := healthy
          commits := 1 }) ∧
    (∀ msg, run_record_updates table_name timestamp exec data 0 tbl = Except.error msg →
      (update_sensor_data true exec table_name timestamp healthy tbl data).returned = false ∧
      (update_sensor_data true exec table_name timestamp healthy tbl data).table = tbl ∧
      (update_sensor_data true exec table_name timestamp healthy tbl data).commits = 0 ∧
      ((lower_contains msg "connection" || lower_contains msg "timeout") = true →
        (update_sensor_data true exec table_name timestamp healthy tbl data).connection_healthy
          = false)) := by
  constructor
  · intro hexec
    unfold update_sensor_data
    rw [if_neg (by simp), run_record_updates_all_ok table_name timestamp exec hexec data 0 tbl]
  · intro msg herr
    unfold update_sensor_data
    rw [if_neg (by simp), herr]
    refine ⟨rfl, rfl, rfl, ?_⟩
    intro hmsg
    simp only [hmsg, if_pos]

/-- Witness for C6: a successful two-record batch applies both updates and
commits once; a batch whose second statement raises a connection error leaves
the table untouched and clears connection_healthy. -/
theorem C6_update_transaction_witness :
    (update_sensor_data true (fun _ => none) "traffic_sensors" (Value.str "TS") true
        [[("id", Value.str "t1"), ("vehicle_count", Value.int 5), ("timestamp", Value.str "old")]]
        [[("id", Value.str "t1"), ("vehicle_count", Value.int 7)]] =
      { returned := true
        table := apply_all_updates "traffic_sensors" (Value.str "TS")
          [[("id", Value.str "t1"), ("vehicle_count", Value.int 7)]]
          [[("id", Value.str "t1"), ("vehicle_count", Value.int 5), ("timestamp", Value.str "old")]]
        connection_healthy := true
        commits := 1 }) ∧
    ((update_sensor_data true (fun i => if i = 0 then some "Connection refused" else none)
        "traffic_sensors" (Value.str "TS") true
        [[("id", Value.str "t1"), ("vehicle_count", Value.int 5), ("timestamp", Value.str "old")]]
        [[("id", Value.str "t1"), ("vehicle_count", Value.int 7)]]).table =
      [[("id", Value.str "t1"), ("vehicle_count", Value.int 5), ("timestamp", Value.str "old")]] ∧
    (update_sensor_data true (fun i => if i = 0 then some "Connection refused" else none)
        "traffic_sensors" (Value.str "TS") true
        [[("id", Value.str "t1"), ("vehicle_count", Value.int 5), ("timestamp", Value.str "old")]]
        [[("id", Value.str "t1"), ("vehicle_count", Value.int 7)]]).connection_healthy = false) := by
  constructor
  · exact (C6_update_transaction (fun _ => none) "traffic_sensors" (Value.str "TS") true
      [[("id", Value.str "t1"), ("vehicle_count", Value.int 5), ("timestamp", Value.str "old")]]
      [[("id", Value.str "t1"), ("vehicle_count", Value.int 7)]]).1 (fun _ => rfl)
  · have h := (C6_update_transaction (fun i => if i = 0 then some "Connection refused" else none)
      "traffic_sensors" (Value.str "TS") true
      [[("id", Value.str "t1"), ("vehicle_count", Value.int 5), ("timestamp", Value.str "old")]]
      [[("id", Value.str "t1"), ("vehicle_count", Value.int 7)]]).2 "Connection refused" rfl
    exact ⟨h.2.1, h.2.2.2 (by decide)⟩

/-- Cell assignment to one column leaves every other column's lookup alone. -/
theorem lookupKey_set_value_ne (p c : String) (v : Value) (row : Row) (h : ¬(c = p)) :
    lookupKey p (set_value c v row) = lookupKey p row := by
  induction row with
  | nil => rfl
  | cons kv rest ih =>
      simp only [set_value, lookupKey]
      by_cases h1 : kv.1 = c
      · simp only [if_pos h1, lookupKey]
        rw [if_neg (h1 ▸ h), if_neg (h1 ▸ h)]
        exact ih
      · simp only [if_neg h1, lookupKey]
        rw [ih]

/-- Cell assignment to a column rewrites exactly the bindings that column
already has. -/
theorem lookupKey_set_value_self (c : String) (v : Value) (row : Row) :
    lookupKey c (set_value c v row) = (lookupKey c row).map (fun _ => v) := by
  induction row with
  | nil => rfl
  | cons kv rest ih =>
      simp only [set_value, lookupKey]
      by_cases h1 : kv.1 = c
      · simp only [if_pos h1, lookupKey]
        rfl
      · simp only [if_neg h1, lookupKey]
        rw [ih]

/-- The per-column mutation loop leaves every protected column's lookup at its
original-row value. -/
theorem mutate_columns_protected (is_sl : Bool) (hour : ℤ)
    (tct : List (String × ColType)) (draws : String → Draws) (orig_row : Row)
    (p : String) (hp : p ∈ PROTECTED_COLUMNS) :
    ∀ (cols : List String) (new_row : Row) (record : Rec),
      lookupKey p new_row = lookupKey p orig_row →
      lookupKey p (mutate_columns is_sl hour tct draws orig_row cols new_row record).1 =
        lookupKey p orig_row := by
  intro cols
  induction cols with
  | nil => intro new_row record h; exact h
  | cons col rest ih =>
      intro new_row record h
      simp only [mutate_columns]
      cases hty : lookupKey col tct with
      | none => exact ih new_row record h
      | some ty =>
          apply ih
          by_cases hc : col = p
          · subst hc
            rw [lookupKey_set_value_self, h,
              flu_protected is_sl hour (lookup_value orig_row col) ty col (draws col) hp]
            cases horig : lookupKey col orig_row with
            | none => rfl
            | some v0 => simp [lookup_value, horig]
          · rw [lookupKey_set_value_ne p col _ new_row hc]
            exact h

/-- Element-wise description of List.set with a default read. -/
theorem getD_set (l : Table) (idx : ℕ) (r : Row) (i : ℕ) :
    (l.set idx r).getD i [] =
      if i = idx ∧ idx < l.length then r else l.getD i [] := by
  induction l generalizing idx i with
  | nil =>
      simp only [List.set, List.length_nil]
      rw [if_neg (by omega)]
  | cons x xs ih =>
      cases idx with
      | zero =>
          cases i with
          | zero => simp [List.set]
          | succ j =>
              simp only [List.set, List.getD_cons_succ, List.length_cons]
              rw [if_neg (by omega)]
      | succ k =>
          cases i with
          | zero =>
              simp only [List.set, List.getD_cons_zero, List.length_cons]
              rw [if_neg (by omega)]
          | succ j =>
              simp only [List.set, List.getD_cons_succ, List.length_cons]
              rw [ih k j]
              by_cases hc : j = k ∧ k < xs.length
              · rw [if_pos hc, if_pos (by omega)]
              · rw [if_neg hc, if_neg (by omega)]

/-- Protected columns used by a claim are never the timestamp column. -/
theorem protected_ne_timestamp (p : String) (hp : p ∈ PROTECTED_COLUMNS) :
    ¬("timestamp" = p) := by
  simp only [PROTECTED_COLUMNS, List.mem_cons, List.not_mem_nil, or_false] at hp
  rcases hp with rfl | rfl | rfl | rfl | rfl <;> decide

/-- Processing one selected row preserves every protected column of every row
of the DataFrame. -/
theorem simulate_row_protected (is_sl : Bool) (hour : ℤ) (now_iso : String)
    (tct : List (String × ColType)) (cols : List String) (draws : String → Draws)
    (df : Table) (idx : ℕ) (p : String) (hp : p ∈ PROTECTED_COLUMNS) (i : ℕ) :
    lookupKey p ((simulate_row is_sl hour now_iso tct cols draws df idx).1.getD i []) =
      lookupKey p (df.getD i []) := by
  unfold simulate_row
  simp only
  rw [getD_set]
  split
  · next hcond =>
      obtain ⟨rfl, -⟩ := hcond
      have hmut := mutate_columns_protected is_sl hour tct draws (df.getD i []) p hp cols
        (df.getD i []) [] rfl
      split
      · rw [lookupKey_set_value_ne p "timestamp" _ _ (protected_ne_timestamp p hp)]
        exact hmut
      · exact hmut
  · rfl

/-- The row loop of one cycle preserves every protected column of every row. -/
theorem simulate_rows_protected (is_sl : Bool) (hour : ℤ) (now_iso : String)
    (table_name : String) (tct : List (String × ColType)) (cols : List String)
    (draws : ℕ → String → Draws) (p : String) (hp : p ∈ PROTECTED_COLUMNS) :
    ∀ (rows : List ℕ) (df : Table) (db : List Rec) (eff : List Effect) (i : ℕ),
      lookupKey p
          ((simulate_rows is_sl hour now_iso table_name tct cols draws rows df db eff).1.getD
            i []) =
        lookupKey p (df.getD i []) := by
  intro rows
  induction rows with
  | nil => intro df db eff i; rfl
  | cons idx rest ih =>
      intro df db eff i
      simp only [simulate_rows]
      rw [ih _ _ _ i]
      exact simulate_row_protected is_sl hour now_iso tct cols (draws idx) df idx p hp i

/-- One simulate_data_changes call preserves every protected column of every
row of the on-disk CSV contents, whatever the write and database outcomes. -/
theorem simulate_data_changes_file_protected (table_name : String) (is_sl : Bool)
    (hour : ℤ) (now_iso local_now_iso : String) (tct : List (String × ColType))
    (cols : List String) (rows_to_update : List ℕ) (draws : ℕ → String → Draws)
    (csv_outcome : CsvWriteOutcome) (db_result : Bool) (df0 : Table) (stats : CycleStats)
    (p : String) (hp : p ∈ PROTECTED_COLUMNS) (i : ℕ) :
    lookupKey p ((simulate_data_changes table_name is_sl hour now_iso local_now_iso tct
        cols rows_to_update draws csv_outcome db_result df0 stats).file.getD i []) =
      lookupKey p (df0.getD i []) := by
  unfold simulate_data_changes
  cases csv_outcome with
  | raised =>
      dsimp only
      split
      · rfl
      · rfl
  | ok =>
      dsimp only
      split
      · exact simulate_rows_protected is_sl hour now_iso table_name tct cols draws p hp
          rows_to_update df0 [] [] i
      · rfl

/-- Any number of simulation cycles preserves every protected column of every
row of the table's stored contents. -/
theorem run_cycles_protected (ps : ℕ → CycleParams) (stats : CycleStats) (p : String)
    (hp : p ∈ PROTECTED_COLUMNS) :
    ∀ (n : ℕ) (file : Table) (i : ℕ),
      lookupKey p ((run_cycles ps stats n file).getD i []) =
        lookupKey p (file.getD i []) := by
  intro n
  induction n with
  | zero => intro file i; rfl
  | succ m ih =>
      intro file i
      simp only [run_cycles]
      rw [ih]
      exact simulate_data_changes_file_protected (ps m).table_name (ps m).is_sl (ps m).hour
        (ps m).now_iso (ps m).local_now_iso (ps m).tct (ps m).cols (ps m).rows_to_update
        (ps m).draws (ps m).csv_outcome (ps m).db_result file stats p hp i

/-- C3: generate_fluctuation returns every protected column (id, location,
latitude, longitude, bus_id) unchanged for every input value, declared type
and random draw; consequently protected-column values are identical before
and after any number of simulation cycles. -/
theorem C3_protected_columns (name : String) (hname : name ∈ PROTECTED_COLUMNS) :
    (∀ (is_sl : Bool) (hour : ℤ) (value : Value) (ty : ColType) (d : Draws),
      generate_fluctuation is_sl hour value ty name d = value) ∧
    (∀ (ps : ℕ → CycleParams) (stats : CycleStats) (n : ℕ) (file : Table) (i : ℕ),
      lookupKey name ((run_cycles ps stats n file).getD i []) =
        lookupKey name (file.getD i [])) :=
  ⟨fun is_sl hour v ty d => flu_protected is_sl hour v ty name d hname,
    fun ps stats n file i => run_cycles_protected ps stats name hname n file i⟩

/-- Witness for C3 at the id column, over three cycles of a one-row
street-light table. -/
theorem C3_protected_columns_witness :
    generate_fluctuation false 12 (Value.str "abc") ColType.str "id" ⟨0, 0, 0⟩
        = Value.str "abc" ∧
    lookupKey "id"
        ((run_cycles
            (fun _ =>
              { table_name := "street_lights", is_sl := true, hour := 12, now_iso := "T"
                local_now_iso := "L"
                tct := [("status", ColType.bool), ("energy_consumption", ColType.float)]
                cols := ["id", "status"], rows_to_update := [0]
                draws := fun _ _ => ⟨0, 0, 0⟩
                csv_outcome := CsvWriteOutcome.ok, db_result := true })
            { updates_attempted := 0, updates_successful := 0, updates_failed := 0
              last_update_time := none, files_processed := [] }
            3 [[("id", Value.str "sl1"), ("status", Value.bool true)]]).getD 0 []) =
      lookupKey "id" (([[("id", Value.str "sl1"), ("status", Value.bool true)]] : Table).getD 0 []) :=
  ⟨(C3_protected_columns "id" (by decide)).1 false 12 (Value.str "abc") ColType.str ⟨0, 0, 0⟩,
    (C3_protected_columns "id" (by decide)).2 _ _ 3 _ 0⟩

/-- The in-memory DataFrame produced by simulate_data_changes is the row-loop
result, whatever the branch taken afterwards. -/
theorem simulate_data_changes_df (table_name : String) (is_sl : Bool) (hour : ℤ)
    (now_iso local_now_iso : String) (tct : List (String × ColType)) (cols : List String)
    (rows_to_update : List ℕ) (draws : ℕ → String → Draws) (csv_outcome : CsvWriteOutcome)
    (db_result : Bool) (df0 : Table) (stats : CycleStats) :
    (simulate_data_changes table_name is_sl hour now_iso local_now_iso tct cols
        rows_to_update draws csv_outcome db_result df0 stats).df =
      (simulate_rows is_sl hour now_iso table_name tct cols draws rows_to_update df0 [] []).1 := by
  unfold simulate_data_changes
  cases csv_outcome <;> (dsimp only; split) <;> rfl

/-- Every effect accumulated by the row loop beyond those already present is a
broker publish for the processed table. -/
theorem simulate_rows_effects (is_sl : Bool) (hour : ℤ) (now_iso table_name : String)
    (tct : List (String × ColType)) (cols : List String) (draws : ℕ → String → Draws) :
    ∀ (rows : List ℕ) (df : Table) (db : List Rec) (eff : List Effect),
      ∀ e ∈ (simulate_rows is_sl hour now_iso table_name tct cols draws rows df db eff).2.2,
        e ∈ eff ∨ ∃ r, e = Effect.publish table_name r := by
  intro rows
  induction rows with
  | nil => intro df db eff e he; exact Or.inl he
  | cons idx rest ih =>
      intro df db eff e he
      rcases ih _ _ _ e he with hin | hpub
      · rcases List.mem_append.mp hin with h1 | h2
        · exact Or.inl h1
        · exact Or.inr ⟨_, List.mem_singleton.mp h2⟩
      · exact Or.inr hpub

/-- The database batch grows by exactly one record per selected row index. -/
theorem simulate_rows_db_length (is_sl : Bool) (hour : ℤ) (now_iso table_name : String)
    (tct : List (String × ColType)) (cols : List String) (draws : ℕ → String → Draws) :
    ∀ (rows : List ℕ) (df : Table) (db : List Rec) (eff : List Effect),
      (simulate_rows is_sl hour now_iso table_name tct cols draws rows df db eff).2.1.length =
        db.length + rows.length := by
  intro rows
  induction rows with
  | nil => intro df db eff; simp [simulate_rows]
  | cons idx rest ih =>
      intro df db eff
      simp only [simulate_rows]
      rw [ih]
      simp only [List.length_append, List.length_singleton, List.length_cons,
        List.length_nil]
      omega

/-- C1 amended: for every table processed in a cycle whose mutated DataFrame
equals the original, the counters updates_attempted, updates_successful and
updates_failed (indeed all statistics) are left unchanged and the
relational-store update (update_sensor_data) is not invoked; the call returns
False.  The original claim that publish_to_mqtt is also not invoked is false:
the broker publish runs once per selected row before the net-change test (see
the counterexample). -/
theorem C1_amended (table_name : String) (is_sl : Bool) (hour : ℤ)
    (now_iso local_now_iso : String) (tct : List (String × ColType)) (cols : List String)
    (rows_to_update : List ℕ) (draws : ℕ → String → Draws) (csv_outcome : CsvWriteOutcome)
    (db_result : Bool) (df0 : Table) (stats : CycleStats)
    (hnochange : (simulate_data_changes table_name is_sl hour now_iso local_now_iso tct cols
        rows_to_update draws csv_outcome db_result df0 stats).df = df0) :
    (simulate_data_changes table_name is_sl hour now_iso local_now_iso tct cols
        rows_to_update draws csv_outcome db_result df0 stats).stats = stats ∧
    (∀ (tn : String) (recs : List Rec) (ok : Bool),
      Effect.db_update tn recs ok ∉
        (simulate_data_changes table_name is_sl hour now_iso local_now_iso tct cols
          rows_to_update draws csv_outcome db_result df0 stats).effects) ∧
    (simulate_data_changes table_name is_sl hour now_iso local_now_iso tct cols
        rows_to_update draws csv_outcome db_result df0 stats).returned = false := by
  have hdf := simulate_data_changes_df table_name is_sl hour now_iso local_now_iso tct cols
    rows_to_update draws csv_outcome db_result df0 stats
  have heq : df0 =
      (simulate_rows is_sl hour now_iso table_name tct cols draws rows_to_update df0 [] []).1 :=
    (hdf ▸ hnochange).symm
  have hcond : ¬(¬(df0 =
      (simulate_rows is_sl hour now_iso table_name tct cols draws rows_to_update
        df0 [] []).1) ∧
      ¬((simulate_rows is_sl hour now_iso table_name tct cols draws rows_to_update
        df0 [] []).2.1 = [])) :=
    fun hc => hc.1 heq
  unfold simulate_data_changes
  dsimp only
  rw [if_neg hcond]
  refine ⟨rfl, ?_, rfl⟩
  intro tn recs ok hmem
  rcases simulate_rows_effects is_sl hour now_iso table_name tct cols draws rows_to_update
      df0 [] [] _ hmem with hin | ⟨r, hr⟩
  · exact List.not_mem_nil _ hin
  · exact Effect.noConfusion hr

/-- Witness for C1 amended: a street-light row whose status is already
consistent with the hour yields no net change, so the statistics are untouched
and no database update happens. -/
theorem C1_amended_witness :
    (simulate_data_changes "street_lights" true 12 "T" "L"
        [("status", ColType.bool), ("energy_consumption", ColType.float)]
        ["id", "status"] [0] (fun _ _ => ⟨0, 0, 0⟩) CsvWriteOutcome.ok true
        [[("id", Value.str "sl1"), ("status", Value.bool false)]]
        { updates_attempted := 0, updates_successful := 0, updates_failed := 0
          last_update_time := none, files_processed := [] }).stats =
      { updates_attempted := 0, updates_successful := 0, updates_failed := 0
        last_update_time := none, files_processed := [] } ∧
    (∀ (tn : String) (recs : List Rec) (ok : Bool),
      Effect.db_update tn recs ok ∉
        (simulate_data_changes "street_lights" true 12 "T" "L"
          [("status", ColType.bool), ("energy_consumption", ColType.float)]
          ["id", "status"] [0] (fun _ _ => ⟨0, 0, 0⟩) CsvWriteOutcome.ok true
          [[("id", Value.str "sl1"), ("status", Value.bool false)]]
          { updates_attempted := 0, updates_successful := 0, updates_failed := 0
            last_update_time := none, files_processed := [] }).effects) ∧
    (simulate_data_changes "street_lights" true 12 "T" "L"
        [("status", ColType.bool), ("energy_consumption", ColType.float)]
        ["id", "status"] [0] (fun _ _ => ⟨0, 0, 0⟩) CsvWriteOutcome.ok true
        [[("id", Value.str "sl1"), ("status", Value.bool false)]]
        { updates_attempted := 0, updates_successful := 0, updates_failed := 0
          last_update_time := none, files_processed := [] }).returned = false :=
  C1_amended "street_lights" true 12 "T" "L"
    [("status", ColType.bool), ("energy_consumption", ColType.float)]
    ["id", "status"] [0] (fun _ _ => ⟨0, 0, 0⟩) CsvWriteOutcome.ok true
    [[("id", Value.str "sl1"), ("status", Value.bool false)]]
    { updates_attempted := 0, updates_successful := 0, updates_failed := 0
      last_update_time := none, files_processed := [] } (by decide)

/-- C1 counterexample: a table whose mutated DataFrame equals the original
still triggers one publish_to_mqtt invocation per selected row, contradicting
the claim that the broker publish is not invoked for such a table. -/
theorem C1_counterexample :
    (simulate_data_changes "street_lights" true 12 "T" "L"
        [("status", ColType.bool), ("energy_consumption", ColType.float)]
        ["id", "status"] [0] (fun _ _ => ⟨0, 0, 0⟩) CsvWriteOutcome.ok true
        [[("id", Value.str "sl1"), ("status", Value.bool false)]]
        { updates_attempted := 0, updates_successful := 0, updates_failed := 0
          last_update_time := none, files_processed := [] }).df =
      [[("id", Value.str "sl1"), ("status", Value.bool false)]] ∧
    Effect.publish "street_lights" [("status", Value.bool false), ("id", Value.str "sl1")] ∈
      (simulate_data_changes "street_lights" true 12 "T" "L"
        [("status", ColType.bool), ("energy_consumption", ColType.float)]
        ["id", "status"] [0] (fun _ _ => ⟨0, 0, 0⟩) CsvWriteOutcome.ok true
        [[("id", Value.str "sl1"), ("status", Value.bool false)]]
        { updates_attempted := 0, updates_successful := 0, updates_failed := 0
          last_update_time := none, files_processed := [] }).effects := by
  decide

/-- C4 amended: for every table with net changes in a cycle, the CSV write is
attempted first; when it returns (successfully — its only non-raising
outcome), the database write is attempted regardless of the CSV result, there
is no rollback of the CSV contents when the database write fails (the file
keeps the mutated DataFrame), and the contribution counts successful iff both
writes succeed and failed otherwise.  When the CSV write raises after
exhausting its retries, the exception is caught, the table is counted failed,
and the database write is skipped — so the original claim that both writes are
attempted regardless of the other's outcome fails in exactly that case (see
the counterexample). -/
theorem C4_amended (table_name : String) (is_sl : Bool) (hour : ℤ)
    (now_iso local_now_iso : String) (tct : List (String × ColType)) (cols : List String)
    (rows_to_update : List ℕ) (draws : ℕ → String → Draws) (csv_outcome : CsvWriteOutcome)
    (db_result : Bool) (df0 : Table) (stats : CycleStats)
    (hchange : ¬((simulate_data_changes table_name is_sl hour now_iso local_now_iso tct cols
        rows_to_update draws csv_outcome db_result df0 stats).df = df0))
    (hrows : ¬(rows_to_update = [])) :
    (csv_outcome = CsvWriteOutcome.ok →
      (simulate_data_changes table_name is_sl hour now_iso local_now_iso tct cols
          rows_to_update draws csv_outcome db_result df0 stats).effects =
        (simulate_rows is_sl hour now_iso table_name tct cols draws rows_to_update
            df0 [] []).2.2 ++
          [Effect.csv_write true,
            Effect.db_update table_name
              (simulate_rows is_sl hour now_iso table_name tct cols draws rows_to_update
                df0 [] []).2.1 db_result] ∧
      (simulate_data_changes table_name is_sl hour now_iso local_now_iso tct cols
          rows_to_update draws csv_outcome db_result df0 stats).file =
        (simulate_data_changes table_name is_sl hour now_iso local_now_iso tct cols
          rows_to_update draws csv_outcome db_result df0 stats).df ∧
      (simulate_data_changes table_name is_sl hour now_iso local_now_iso tct cols
          rows_to_update draws csv_outcome db_result df0 stats).stats.updates_attempted =
        stats.updates_attempted + 1 ∧
      (simulate_data_changes table_name is_sl hour now_iso local_now_iso tct cols
          rows_to_update draws csv_outcome db_result df0 stats).stats.updates_successful =
        stats.updates_successful + (if db_result then 1 else 0) ∧
      (simulate_data_changes table_name is_sl hour now_iso local_now_iso tct cols
          rows_to_update draws csv_outcome db_result df0 stats).stats.updates_failed =
        stats.updates_failed + (if db_result then 0 else 1)) ∧
    (csv_outcome = CsvWriteOutcome.raised →
      (simulate_data_changes table_name is_sl hour now_iso local_now_iso tct cols
          rows_to_update draws csv_outcome db_result df0 stats).effects =
        (simulate_rows is_sl hour now_iso table_name tct cols draws rows_to_update
            df0 [] []).2.2 ++ [Effect.csv_write false] ∧
      (simulate_data_changes table_name is_sl hour now_iso local_now_iso tct cols
          rows_to_update draws csv_outcome db_result df0 stats).file = df0 ∧
      (simulate_data_changes table_name is_sl hour now_iso local_now_iso tct cols
          rows_to_update draws csv_outcome db_result df0 stats).stats.updates_failed =
        stats.updates_failed + 1 ∧
      (simulate_data_changes table_name is_sl hour now_iso local_now_iso tct cols
          rows_to_update draws csv_outcome db_result df0 stats).stats.updates_attempted =
        stats.updates_attempted ∧
      (simulate_data_changes table_name is_sl hour now_iso local_now_iso tct cols
          rows_to_update draws csv_outcome db_result df0 stats).stats.updates_successful =
        stats.updates_successful) := by
  have hdf := simulate_data_changes_df table_name is_sl hour now_iso local_now_iso tct cols
    rows_to_update draws csv_outcome db_result df0 stats
  have hne : ¬(df0 =
      (simulate_rows is_sl hour now_iso table_name tct cols draws rows_to_update
        df0 [] []).1) :=
    fun h => hchange (hdf.trans h.symm)
  have hlen := simulate_rows_db_length is_sl hour now_iso table_name tct cols draws
    rows_to_update df0 [] []
  have hdb : ¬((simulate_rows is_sl hour now_iso table_name tct cols draws rows_to_update
      df0 [] []).2.1 = []) := by
    intro hnil
    rw [hnil] at hlen
    simp only [List.length_nil] at hlen
    cases rows_to_update with
    | nil => exact hrows rfl
    | cons a l => simp [List.length_cons] at hlen
  constructor
  · rintro rfl
    unfold simulate_data_changes
    dsimp only
    rw [if_pos ⟨hne, hdb⟩]
    cases db_result <;>
      exact ⟨rfl, rfl, rfl, rfl, rfl⟩
  · rintro rfl
    unfold simulate_data_changes
    dsimp only
    rw [if_pos ⟨hne, hdb⟩]
    exact ⟨rfl, rfl, rfl, rfl, rfl⟩

/-- Witness for C4 amended: a street-light status flip with a successful CSV
write and a failing database write still records the CSV write and attempts
the database update, counting the contribution failed. -/
theorem C4_amended_witness :
    (simulate_data_changes "street_lights" true 12 "T" "L"
        [("status", ColType.bool), ("energy_consumption", ColType.float)]
        ["id", "status"] [0] (fun _ _ => ⟨0, 0, 0⟩) CsvWriteOutcome.ok false
        [[("id", Value.str "sl1"), ("status", Value.bool true)]]
        { updates_attempted := 0, updates_successful := 0, updates_failed := 0
          last_update_time := none, files_processed := [] }).effects =
      (simulate_rows true 12 "T" "street_lights"
          [("status", ColType.bool), ("energy_consumption", ColType.float)]
          ["id", "status"] (fun _ _ => ⟨0, 0, 0⟩) [0]
          [[("id", Value.str "sl1"), ("status", Value.bool true)]] [] []).2.2 ++
        [Effect.csv_write true,
          Effect.db_update "street_lights"
            (simulate_rows true 12 "T" "street_lights"
              [("status", ColType.bool), ("energy_consumption", ColType.float)]
              ["id", "status"] (fun _ _ => ⟨0, 0, 0⟩) [0]
              [[("id", Value.str "sl1"), ("status", Value.bool true)]] [] []).2.1 false] ∧
    (simulate_data_changes "street_lights" true 12 "T" "L"
        [("status", ColType.bool), ("energy_consumption", ColType.float)]
        ["id", "status"] [0] (fun _ _ => ⟨0, 0, 0⟩) CsvWriteOutcome.ok false
        [[("id", Value.str "sl1"), ("status", Value.bool true)]]
        { updates_attempted := 0, updates_successful := 0, updates_failed := 0
          last_update_time := none, files_processed := [] }).file =
      (simulate_data_changes "street_lights" true 12 "T" "L"
        [("status", ColType.bool), ("energy_consumption", ColType.float)]
        ["id", "status"] [0] (fun _ _ => ⟨0, 0, 0⟩) CsvWriteOutcome.ok false
        [[("id", Value.str "sl1"), ("status", Value.bool true)]]
        { updates_attempted := 0, updates_successful := 0, updates_failed := 0
          last_update_time := none, files_processed := [] }).df ∧
    (simulate_data_changes "street_lights" true 12 "T" "L"
        [("status", ColType.bool), ("energy_consumption", ColType.float)]
        ["id", "status"] [0] (fun _ _ => ⟨0, 0, 0⟩) CsvWriteOutcome.ok false
        [[("id", Value.str "sl1"), ("status", Value.bool true)]]
        { updates_attempted := 0, updates_successful := 0, updates_failed := 0
          last_update_time := none, files_processed := [] }).stats.updates_attempted =
      0 + 1 ∧
    (simulate_data_changes "street_lights" true 12 "T" "L"
        [("status", ColType.bool), ("energy_consumption", ColType.float)]
        ["id", "status"] [0] (fun _ _ => ⟨0, 0, 0⟩) CsvWriteOutcome.ok false
        [[("id", Value.str "sl1"), ("status", Value.bool true)]]
        { updates_attempted := 0, updates_successful := 0, updates_failed := 0
          last_update_time := none, files_processed := [] }).stats.updates_successful =
      0 + (if false then 1 else 0) ∧
    (simulate_data_changes "street_lights" true 12 "T" "L"
        [("status", ColType.bool), ("energy_consumption", ColType.float)]
        ["id", "status"] [0] (fun _ _ => ⟨0, 0, 0⟩) CsvWriteOutcome.ok false
        [[("id", Value.str "sl1"), ("status", Value.bool true)]]
        { updates_attempted := 0, updates_successful := 0, updates_failed := 0
          last_update_time := none, files_processed := [] }).stats.updates_failed =
      0 + (if false then 0 else 1) :=
  (C4_amended "street_lights" true 12 "T" "L"
    [("status", ColType.bool), ("energy_consumption", ColType.float)]
    ["id", "status"] [0] (fun _ _ => ⟨0, 0, 0⟩) CsvWriteOutcome.ok false
    [[("id", Value.str "sl1"), ("status", Value.bool true)]]
    { updates_attempted := 0, updates_successful := 0, updates_failed := 0
      last_update_time := none, files_processed := [] } (by decide) (by decide)).1 rfl

/-- C4 counterexample: a table with net changes whose CSV write raises after
exhausting its retries is counted failed without the database write ever being
attempted — the full effect trace holds one publish and the failed CSV write
and no db_update effect, contradicting the claim that both writes are always
attempted. -/
theorem C4_counterexample :
    ¬((simulate_data_changes "street_lights" true 12 "T" "L"
        [("status", ColType.bool), ("energy_consumption", ColType.float)]
        ["id", "status"] [0] (fun _ _ => ⟨0, 0, 0⟩) CsvWriteOutcome.raised true
        [[("id", Value.str "sl1"), ("status", Value.bool true)]]
        { updates_attempted := 0, updates_successful := 0, updates_failed := 0
          last_update_time := none, files_processed := [] }).df =
      [[("id", Value.str "sl1"), ("status", Value.bool true)]]) ∧
    (simulate_data_changes "street_lights" true 12 "T" "L"
        [("status", ColType.bool), ("energy_consumption", ColType.float)]
        ["id", "status"] [0] (fun _ _ => ⟨0, 0, 0⟩) CsvWriteOutcome.raised true
        [[("id", Value.str "sl1"), ("status", Value.bool true)]]
        { updates_attempted := 0, updates_successful := 0, updates_failed := 0
          last_update_time := none, files_processed := [] }).effects =
      [Effect.publish "street_lights" [("status", Value.bool false), ("id", Value.str "sl1")],
        Effect.csv_write false] ∧
    (simulate_data_changes "street_lights" true 12 "T" "L"
        [("status", ColType.bool), ("energy_consumption", ColType.float)]
        ["id", "status"] [0] (fun _ _ => ⟨0, 0, 0⟩) CsvWriteOutcome.raised true
        [[("id", Value.str "sl1"), ("status", Value.bool true)]]
        { updates_attempted := 0, updates_successful := 0, updates_failed := 0
          last_update_time := none, files_processed := [] }).stats.updates_failed = 1 ∧
    (simulate_data_changes "street_lights" true 12 "T" "L"
        [("status", ColType.bool), ("energy_consumption", ColType.float)]
        ["id", "status"] [0] (fun _ _ => ⟨0, 0, 0⟩) CsvWriteOutcome.raised true
        [[("id", Value.str "sl1"), ("status", Value.bool true)]]
        { updates_attempted := 0, updates_successful := 0, updates_failed := 0
          last_update_time := none, files_processed := [] }).stats.updates_attempted = 0 := by
  decide
